import Mathlib

/-!
Shallow embedding of the SafeSpace repository (backend/ai_agent.py,
backend/main.py, backend/tools.py, app.py, frontend.py) and proofs about
the claims of its specification.

The effectful boundaries (the Groq/Ollama chat model, the Twilio client,
the Gemini TTS HTTP call, uuid generation) are modelled as explicit
function parameters giving the outcome of each external call; everything
the repository's own code does with those outcomes is translated
faithfully.
-/

/-- One entry of an AIMessage's `tool_calls` list. In the source each entry is
a dict; `msg.tool_calls[0].get('name')` yields the value of the 'name' key or
Python `None`, modelled as an `Option String`. -/
structure ToolCall where
  name : Option String
deriving DecidableEq

/-- The `content` attribute of a LangChain message: a Python `str`, or any
other shape (e.g. a list of content blocks), which `parse_response` ignores
(`isinstance(msg.content, str)` fails). -/
inductive MsgContent where
  | str (s : String)
  | nonString
deriving DecidableEq

/-- An element of a step's message list. `base tool_calls content` is a
LangChain `BaseMessage` (its `tool_calls` attribute missing or empty is
modelled as the empty list — the source guards with
`hasattr(msg, 'tool_calls') and msg.tool_calls`, which skips both the same
way). `nonMessage` is any other object; the source's
`isinstance(msg, BaseMessage)` check skips it entirely. -/
inductive Msg where
  | base (tool_calls : List ToolCall) (content : MsgContent)
  | nonMessage
deriving DecidableEq

/-- One state-update dict from `graph.stream(..., stream_mode="updates")`.
`root = some msgs` models the key `'__root__'` being present, holding a dict
with a `'messages'` list; `none` models the key absent or its value malformed
(not a dict with `'messages'`) — the source treats those identically (the
`if` condition is false).  Likewise `agent` for the `'agent'` key. -/
structure Step where
  root : Option (List Msg)
  agent : Option (List Msg)
deriving DecidableEq

/-- Lines 80-85 of backend/ai_agent.py (and lines 136-139 of app.py): take the
messages under `'__root__'` when that shape is present, `elif` those under
`'agent'`, else nothing. -/
def extractMessages (step : Step) : List Msg :=
  match step.root with
  | some msgs => msgs
  | none =>
    match step.agent with
    | some msgs => msgs
    | none => []

/-- Python truthiness of an optional string: `None` and `""` are falsy. -/
def optTruthy : Option String → Bool
  | none => false
  | some s => s != ""

/-- Body of the inner loop of `parse_response` (backend/ai_agent.py lines
88-100) on the running state `(tool_called_name, final_response)`: an
`AIMessage`-style tool-call list overwrites `tool_called_name` with the first
tool call's name when that name is truthy, and a string `content` is appended
to `final_response`. -/
def processMsg (st : String × String) : Msg → String × String
  | .nonMessage => st
  | .base tool_calls content =>
    let st1 :=
      match tool_calls with
      | [] => st
      | tc :: _ =>
        match tc.name with
        | some n => if n != "" then (n, st.2) else st
        | none => st
    match content with
    | .str s => (st1.1, st1.2 ++ s)
    | .nonString => st1

/-- Processing of one stream step: fold `processMsg` over the step's
extracted messages. -/
def processStep (st : String × String) (step : Step) : String × String :=
  (extractMessages step).foldl processMsg st

/-- Characters remaining after removing a leading run of whitespace. -/
def dropLeadingWS : List Char → List Char
  | [] => []
  | c :: cs => if c.isWhitespace then dropLeadingWS cs else c :: cs

/-- Python's `str.strip()` with no argument: remove leading and trailing
whitespace (modelled structurally so the kernel can evaluate it). -/
def pyStrip (s : String) : String :=
  ⟨(dropLeadingWS (dropLeadingWS s.data.reverse).reverse)⟩

/-- `parse_response` of backend/ai_agent.py lines 64-103 (identical logic in
app.py lines 131-147): fold over the stream starting from
`("None", "")`, then strip the accumulated text. -/
def parse_response (stream : List Step) : String × String :=
  let acc := stream.foldl processStep ("None", "")
  (acc.1, pyStrip acc.2)

/-- Spec-side view of a message: the name recorded by a tool-request scan of
this message, if any — the first entry of a non-empty `tool_calls` list whose
name is present and non-empty. -/
def firstToolCallName : Msg → Option String
  | .nonMessage => none
  | .base tool_calls _ =>
    match tool_calls with
    | [] => none
    | tc :: _ =>
      match tc.name with
      | some n => if n != "" then some n else none
      | none => none

/-- Spec-side view of a message's text contribution: its content when that
content is a string. -/
def msgText : Msg → Option String
  | .base _ (.str s) => some s
  | _ => none

/-- All effective tool-request names of a stream, in arrival order. -/
def requestedTools (stream : List Step) : List String :=
  stream.flatMap fun step => (extractMessages step).filterMap firstToolCallName

/-- All string text fragments of a stream, in arrival order: the string-typed
contents of the base messages each event exposes (an event exposes its
messages through `extractMessages`; per the spec at most one of the two
alternative shapes is present). -/
def textFragments (stream : List Step) : List String :=
  stream.flatMap fun step => (extractMessages step).filterMap msgText

theorem processMsg_fst (msgs : List Msg) (st : String × String) :
    (msgs.foldl processMsg st).1 = (msgs.filterMap firstToolCallName).getLastD st.1 := by
  induction msgs generalizing st with
  | nil => rfl
  | cons m ms ih =>
    have hm : (processMsg st m).1 =
        match firstToolCallName m with
        | some n => n
        | none => st.1 := by
      cases m with
      | nonMessage => rfl
      | base tcs content =>
        cases tcs with
        | nil => cases content <;> rfl
        | cons tc rest =>
          cases hn : tc.name with
          | none => cases content <;> simp [processMsg, firstToolCallName, hn]
          | some n =>
            by_cases h : n = ""
            · cases content <;> simp [processMsg, firstToolCallName, hn, h]
            · cases content <;> simp [processMsg, firstToolCallName, hn, h]
    rw [List.foldl_cons, ih]
    cases hf : firstToolCallName m with
    | none => rw [List.filterMap_cons_none hf, hm, hf]
    | some n => rw [List.filterMap_cons_some hf, List.getLastD_cons, hm, hf]

theorem string_foldl_append (l : List String) (a b : String) :
    l.foldl (fun r s => r ++ s) (a ++ b) = a ++ l.foldl (fun r s => r ++ s) b := by
  induction l generalizing b with
  | nil => rfl
  | cons x xs ih => simp only [List.foldl_cons, String.append_assoc, ih]

theorem string_join_cons (s : String) (l : List String) :
    String.join (s :: l) = s ++ String.join l := by
  have h := string_foldl_append l s ""
  rw [String.append_empty] at h
  simpa [String.join] using h

theorem processMsg_snd (msgs : List Msg) (st : String × String) :
    (msgs.foldl processMsg st).2 = st.2 ++ String.join (msgs.filterMap msgText) := by
  induction msgs generalizing st with
  | nil => simp [String.join]
  | cons m ms ih =>
    have hm : (processMsg st m).2 =
        match msgText m with
        | some s => st.2 ++ s
        | none => st.2 := by
      cases m with
      | nonMessage => rfl
      | base tcs content =>
        cases tcs with
        | nil => cases content <;> rfl
        | cons tc rest =>
          cases hn : tc.name with
          | none => cases content <;> simp [processMsg, msgText, hn]
          | some n =>
            by_cases h : n = ""
            · cases content <;> simp [processMsg, msgText, hn, h]
            · cases content <;> simp [processMsg, msgText, hn, h]
    rw [List.foldl_cons, ih]
    cases hf : msgText m with
    | none => rw [List.filterMap_cons_none hf, hm, hf]
    | some s =>
      rw [List.filterMap_cons_some hf, string_join_cons, hm, hf,
        ← String.append_assoc]

theorem getLastD_append {α : Type} (l1 l2 : List α) (d : α) :
    (l1 ++ l2).getLastD d = l2.getLastD (l1.getLastD d) := by
  induction l1 generalizing d with
  | nil => rfl
  | cons a l ih =>
    rw [List.cons_append, List.getLastD_cons, ih, List.getLastD_cons]

theorem string_join_append (l1 l2 : List String) :
    String.join (l1 ++ l2) = String.join l1 ++ String.join l2 := by
  induction l1 with
  | nil =>
    rw [List.nil_append]
    exact (String.empty_append _).symm
  | cons x xs ih =>
    rw [List.cons_append, string_join_cons, string_join_cons, ih,
      String.append_assoc]

theorem foldl_processStep_fst (stream : List Step) (st : String × String) :
    (stream.foldl processStep st).1 = (requestedTools stream).getLastD st.1 := by
  induction stream generalizing st with
  | nil => rfl
  | cons s rest ih =>
    have hsplit : requestedTools (s :: rest) =
        (extractMessages s).filterMap firstToolCallName ++ requestedTools rest := rfl
    rw [List.foldl_cons, ih, hsplit, getLastD_append]
    have : (processStep st s).1 =
        ((extractMessages s).filterMap firstToolCallName).getLastD st.1 :=
      processMsg_fst _ _
    rw [this]

theorem foldl_processStep_snd (stream : List Step) (st : String × String) :
    (stream.foldl processStep st).2 = st.2 ++ String.join (textFragments stream) := by
  induction stream generalizing st with
  | nil => simp [textFragments, String.join]
  | cons s rest ih =>
    have hsplit : textFragments (s :: rest) =
        (extractMessages s).filterMap msgText ++ textFragments rest := rfl
    have hstep : (processStep st s).2 =
        st.2 ++ String.join ((extractMessages s).filterMap msgText) :=
      processMsg_snd _ _
    rw [List.foldl_cons, ih, hsplit, string_join_append, hstep,
      String.append_assoc]

theorem parse_response_fst (stream : List Step) :
    (parse_response stream).1 = (requestedTools stream).getLastD "None" :=
  foldl_processStep_fst stream ("None", "")

theorem parse_response_snd (stream : List Step) :
    (parse_response stream).2 = pyStrip (String.join (textFragments stream)) := by
  have h := foldl_processStep_snd stream ("None", "")
  show pyStrip (List.foldl processStep ("None", "") stream).2 = _
  rw [h]
  rfl

/-- Concrete stream with two tool-invocation requests in stream order: an
assistant message requesting `ask_mental_health_specialist`, then one
requesting `call_emergency_services` (each under the `'agent'` update shape,
with empty string content, as the react agent emits them). -/
def twoToolStream : List Step :=
  [⟨none, some [Msg.base [⟨some "ask_mental_health_specialist"⟩] (MsgContent.str "")]⟩,
   ⟨none, some [Msg.base [⟨some "call_emergency_services"⟩] (MsgContent.str "")]⟩]

/-- Concrete stream with one event carrying only the text fragments
"Hi " and "there" and no tool request. -/
def hiThereStream : List Step :=
  [⟨none, some [Msg.base [] (MsgContent.str "Hi "), Msg.base [] (MsgContent.str "there")]⟩]

/-- Concrete stream in which an assistant message requests
`call_emergency_services` and a later tool-result message (a `BaseMessage`
with no `tool_calls`) carries the text "Calling now". -/
def emergencyThenResultStream : List Step :=
  [⟨none, some [Msg.base [⟨some "call_emergency_services"⟩] (MsgContent.str "")]⟩,
   ⟨none, some [Msg.base [] (MsgContent.str "Calling now")]⟩]

/-- Claim C1 is false on the code: on a stream with a request for
`ask_mental_health_specialist` followed by a request for
`call_emergency_services`, `parse_response` returns the SECOND name, not the
first — the assignment `tool_called_name = msg.tool_calls[0]['name']` has no
guard and overwrites the earlier name. -/
theorem C1_counterexample :
    (parse_response twoToolStream).1 = "call_emergency_services" ∧
    (parse_response twoToolStream).1 ≠ "ask_mental_health_specialist" := by
  constructor <;> decide

/-- Claim C1, amended: for every event stream, `parse_response` returns as
`invoked_tool` the name of the LAST tool-invocation request observed in stream
order (taking only the first tool call of each message, and ignoring requests
whose name is missing or empty), defaulting to "None"; in particular the
stream with `ask_mental_health_specialist` then `call_emergency_services`
yields `call_emergency_services`. -/
theorem C1_last_tool_request_wins :
    (∀ stream : List Step,
      (parse_response stream).1 = (requestedTools stream).getLastD "None") ∧
    (parse_response twoToolStream).1 = "call_emergency_services" := by
  refine ⟨parse_response_fst, ?_⟩
  decide

/-- Claim C4: for every event stream, the `final_text` returned by
`parse_response` equals the concatenation, in arrival order and with no
inserted separator, of every string-typed message content of every event,
trimmed of leading and trailing whitespace; in particular a stream with one
event carrying only the text fragments "Hi " and "there" yields
`("None", "Hi there")`. -/
theorem C4_final_text_is_trimmed_concat :
    (∀ stream : List Step,
      (parse_response stream).2 = pyStrip (String.join (textFragments stream))) ∧
    parse_response hiThereStream = ("None", "Hi there") := by
  refine ⟨parse_response_snd, ?_⟩
  decide

/-- Claim C5: on a stream where an assistant message requests the tool
`call_emergency_services` and a later tool-result event carries the text
"Calling now", `parse_response` returns
`("call_emergency_services", "Calling now")`: the tool name is captured and
the tool-result message's content is accumulated like any other content. -/
theorem C5_tool_result_text_accumulated :
    parse_response emergencyThenResultStream = ("call_emergency_services", "Calling now") := by
  decide

/-- Claim C10: a stream event that carries both a `'__root__'` entry and an
`'agent'` entry (each holding a message list) is processed exactly as if it
carried only the `'__root__'` entry: the `'agent'` messages of that event
contribute neither text to `final_text` nor a name to `invoked_tool`. -/
theorem C10_root_entry_shadows_agent_entry (r a : List Msg) (pre post : List Step) :
    parse_response (pre ++ ⟨some r, some a⟩ :: post) =
      parse_response (pre ++ ⟨some r, none⟩ :: post) := by
  simp only [parse_response, List.foldl_append, List.foldl_cons]
  rfl

/-- Telephony configuration read from the environment in app.py lines 22-24,
plus the availability of the Twilio client import (app.py lines 15-18).
Each `os.getenv` result is `None` or a string. -/
structure TwilioEnv where
  account_sid : Option String
  auth_token : Option String
  from_number : Option String
  client_available : Bool
deriving DecidableEq

/-- Outcome of `client.calls.create(...)`: a created call carrying its SID, or
an exception whose text is embedded in the failure message. -/
inductive CallOutcome where
  | created (sid : String)
  | failed (err : String)
deriving DecidableEq

/-- The guard of app.py line 104:
`not (TWILIO_ACCOUNT_SID and TWILIO_AUTH_TOKEN and TWILIO_FROM_NUMBER and TwilioClient)`
with Python truthiness (missing or empty strings are falsy). -/
def telephonyConfigured (env : TwilioEnv) : Bool :=
  optTruthy env.account_sid && optTruthy env.auth_token &&
    optTruthy env.from_number && env.client_available

/-- `call_emergency_services` of app.py lines 98-123. The Twilio call-creation
request is modelled by the `createCall` parameter; it is consulted only after
the configuration guard passes. Every branch returns a string (the source
never raises: its `try` body's only effect is the call creation, and the
`except` branch returns a string). -/
def call_emergency_services (env : TwilioEnv) (createCall : String → CallOutcome)
    (phone : String) : String :=
  if !telephonyConfigured env then
    "Emergency call could not be initiated because telephony is not configured. Please dial your local emergency number immediately."
  else
    match createCall phone with
    | .created sid =>
        "A critical situation alert has been triggered. The emergency helpline is now calling " ++ phone ++ ". Call SID: " ++ sid ++ ". Please stay safe and on the line."
    | .failed e =>
        "Emergency call attempt failed (error: " ++ e ++ "). Please contact your local emergency services immediately."

/-- Claim C2: for every phone-number string, `call_emergency_services` with
telephony credentials absent checks the preconditions before attempting the
call (the result is the fixed configuration-missing message, independent of
the provider), never raises (the model is a total function), and returns a
non-empty string containing the literal substring "local emergency number". -/
theorem C2_missing_credentials_fallback (env : TwilioEnv)
    (createCall : String → CallOutcome) (phone : String)
    (hsid : env.account_sid = none) (htok : env.auth_token = none)
    (hfrom : env.from_number = none) :
    call_emergency_services env createCall phone =
      "Emergency call could not be initiated because telephony is not configured. Please dial your local emergency number immediately." ∧
    call_emergency_services env createCall phone ≠ "" ∧
    ∃ pre post, call_emergency_services env createCall phone =
      pre ++ "local emergency number" ++ post := by
  have hcfg : telephonyConfigured env = false := by
    simp [telephonyConfigured, hsid, htok, hfrom, optTruthy]
  have hval : call_emergency_services env createCall phone =
      "Emergency call could not be initiated because telephony is not configured. Please dial your local emergency number immediately." := by
    simp [call_emergency_services, hcfg]
  refine ⟨hval, ?_, ?_⟩
  · rw [hval]
    decide
  · refine ⟨"Emergency call could not be initiated because telephony is not configured. Please dial your ", " immediately.", ?_⟩
    rw [hval]
    decide

/-- Witness for C2 at a concrete input: no credentials, client import
available, phone "+15550001111". -/
theorem C2_witness :
    call_emergency_services ⟨none, none, none, true⟩ (fun _ => CallOutcome.failed "no client") "+15550001111" =
      "Emergency call could not be initiated because telephony is not configured. Please dial your local emergency number immediately." ∧
    call_emergency_services ⟨none, none, none, true⟩ (fun _ => CallOutcome.failed "no client") "+15550001111" ≠ "" ∧
    ∃ pre post, call_emergency_services ⟨none, none, none, true⟩ (fun _ => CallOutcome.failed "no client") "+15550001111" =
      pre ++ "local emergency number" ++ post :=
  C2_missing_credentials_fallback ⟨none, none, none, true⟩
    (fun _ => CallOutcome.failed "no client") "+15550001111" rfl rfl rfl

/-- Outcome of `therapist_llm.invoke(...)` in app.py line 87: a response whose
`content` attribute is a string or `None`, or a raised exception. -/
inductive LlmResult where
  | ok (content : Option String)
  | failed (err : String)
deriving DecidableEq

/-- `ask_mental_health_specialist` of app.py lines 58-96. `therapist_llm` is
`none` when GROQ_API_KEY is unset (app.py lines 27-32); otherwise the provider
call's outcome is given by the function carried in `some`. The source's
`(resp.content or "").strip()` maps a `None` content to `""`. -/
def ask_mental_health_specialist (therapist_llm : Option (String → LlmResult))
    (prompt : String) : String :=
  match therapist_llm with
  | none =>
      "The assistant is not fully configured (missing GROQ_API_KEY). Please try again after the server is configured."
  | some invokeLlm =>
    match invokeLlm prompt with
    | .failed _ =>
        "I'm having technical difficulties right now, but I want you to know your feelings matter. Please try again later."
    | .ok content => pyStrip (content.getD "")

/-- Outcome of `ollama.chat(...)` followed by the response-structure access
`response['message']['content']` in backend/tools.py lines 32-45: the content
string, or a raised exception (network failure, auth, or malformed response —
a missing key raises and lands in the same `except`). -/
inductive OllamaResult where
  | ok (content : String)
  | failed (err : String)
deriving DecidableEq

/-- `query_medgemma` of backend/tools.py lines 6-48, the body of the backend's
`ask_mental_health_specialist` tool (backend/ai_agent.py lines 15-22): returns
the stripped generated content, or on any exception the fixed empathetic
fallback string. -/
def query_medgemma (chat : String → OllamaResult) (prompt : String) : String :=
  match chat prompt with
  | .ok content => pyStrip content
  | .failed _ =>
      "I'm having technical difficulties right now, but I want you to know your feelings matter. Please try again later."

/-- Claim C3: for every prompt string, if the underlying provider call fails
(raises any exception), `ask_mental_health_specialist` never propagates the
error (the model is a total function whose except-branch returns a string) and
returns the fixed empathetic fallback string verbatim — both in the app.py
variant (Groq `therapist_llm.invoke`) and in the backend variant
(`query_medgemma` over Ollama), whose fallback strings are identical. -/
theorem C3_provider_failure_fallback (invokeLlm : String → LlmResult)
    (chat : String → OllamaResult) (prompt e e2 : String)
    (hfail : invokeLlm prompt = LlmResult.failed e)
    (hfail2 : chat prompt = OllamaResult.failed e2) :
    ask_mental_health_specialist (some invokeLlm) prompt =
      "I'm having technical difficulties right now, but I want you to know your feelings matter. Please try again later." ∧
    query_medgemma chat prompt =
      "I'm having technical difficulties right now, but I want you to know your feelings matter. Please try again later." := by
  constructor
  · simp [ask_mental_health_specialist, hfail]
  · simp [query_medgemma, hfail2]

/-- Witness for C3 at a concrete input: providers that raise on every
prompt. -/
theorem C3_witness :
    ask_mental_health_specialist (some (fun _ => LlmResult.failed "connection reset")) "I feel anxious" =
      "I'm having technical difficulties right now, but I want you to know your feelings matter. Please try again later." ∧
    query_medgemma (fun _ => OllamaResult.failed "connection reset") "I feel anxious" =
      "I'm having technical difficulties right now, but I want you to know your feelings matter. Please try again later." :=
  C3_provider_failure_fallback (fun _ => LlmResult.failed "connection reset")
    (fun _ => OllamaResult.failed "connection reset")
    "I feel anxious" "connection reset" "connection reset" rfl rfl

/-- The `input_mode`/`response_mode` literal of backend/main.py lines 15-16. -/
inductive Mode where
  | chat
  | voice
deriving DecidableEq

/-- The `Query` request model of backend/main.py lines 11-16. -/
structure Query where
  message : String
  session_id : String
  input_mode : Mode
  response_mode : Option Mode
deriving DecidableEq

/-- One stored session entry, `{"name": ..., "phone": ...}` of
backend/main.py line 37. -/
structure Session where
  name : String
  phone : String
deriving DecidableEq

/-- The in-memory `SESSIONS` dict of backend/main.py line 27, as an
association list; a fresh insertion is consed at the front, and lookup takes
the first match, so a same-key insertion shadows the older entry exactly as a
dict assignment overwrites it. -/
abbrev SessionStore := List (String × Session)

/-- `SESSIONS.get(session_id)` of backend/main.py line 46. -/
def sessionsGet : SessionStore → String → Option Session
  | [], _ => none
  | (k, v) :: rest, sid => if k = sid then some v else sessionsGet rest sid

/-- The `SYSTEM_PROMPT` of backend/main.py lines 38-58 (byte-identical text,
including the leading and trailing newline of the triple-quoted literal). -/
def SYSTEM_PROMPT : String :=
  "
You are \"Friday\", an AI mental health assistant with three modes of operation:
1. **General Q&A Mode**: If the user is asking a factual, casual, or non-emotional question, respond directly without using any tools.
2. **Therapeutic Mode**: If the user shares emotional concerns, mental health struggles, or seeks personal guidance, use the `ask_mental_health_specialist` tool.
3. **Emergency Mode**: If the user mentions suicidal thoughts, self-harm, or being in immediate danger, IMMEDIATELY call the `call_emergency_services` tool.

Rules for Decision Making:
- Always first assess the emotional and safety level of the user's message.
- If the situation involves emotional distress but not immediate danger → Use `ask_mental_health_specialist`.
- If there are any indicators of self-harm, suicide, or danger to self/others → Use `call_emergency_services` without hesitation.
- Otherwise, answer directly as a friendly and helpful AI.

Tone Guidelines:
- Empathetic, warm, and understanding for all emotional interactions.
- Concise and clear for general queries.
- Urgent and safety-focused for emergencies.

You have access to:
- ask_mental_health_specialist(prompt: str)
- call_emergency_services(phone: str)
"

/-- The `StartSessionResponse` model of backend/main.py lines 22-24. -/
structure StartSessionResponse where
  session_id : String
  greeting : String
deriving DecidableEq

/-- `start_session` of backend/main.py lines 33-42. The `uuid.uuid4()` call is
external; the generated identifier is the `fresh_uuid` parameter. The session
entry is stored keyed by it and a templated greeting is returned. -/
def start_session (sessions : SessionStore) (fresh_uuid name phone : String) :
    SessionStore × StartSessionResponse :=
  ((fresh_uuid, ⟨name, phone⟩) :: sessions,
   ⟨fresh_uuid,
    "Hello " ++ name ++ ", I'm Friday. We can communicate in two modes: chat or voice. You can send messages by typing or speaking, and choose how you'd like me to respond."⟩)

/-- Resolution of the display name (backend/main.py line 47):
`session.get("name") if session else "there"`. -/
def resolve_name (session : Option Session) : String :=
  match session with
  | some s => s.name
  | none => "there"

/-- Resolution of the contact phone (backend/main.py line 48):
`session.get("phone") if session else ""`. -/
def resolve_phone (session : Option Session) : String :=
  match session with
  | some s => s.phone
  | none => ""

/-- The per-turn `session_context` f-string of backend/main.py lines 54-58. -/
def sessionContextOf (name phone : String) : String :=
  "User name: " ++ name ++ ". User phone: " ++ phone ++
    ". When using call_emergency_services(phone), always pass this exact phone number: " ++
    phone ++ ". Agent name is Friday."

/-- The `inputs` messages built in backend/main.py lines 46-66: session
lookup, name/phone resolution, session context, then the three
(role, content) message pairs handed to `graph.stream`. -/
def buildInputs (sessions : SessionStore) (q : Query) : List (String × String) :=
  let session := sessionsGet sessions q.session_id
  [("system", SYSTEM_PROMPT),
   ("system", sessionContextOf (resolve_name session) (resolve_phone session)),
   ("user", q.message)]

/-- The `/ask` response body of backend/main.py lines 71-75. -/
structure AskResponse where
  response : String
  tool_called : String
  response_mode : Mode
deriving DecidableEq

/-- `ask_question` of backend/main.py lines 44-75. The agent execution
(`graph.stream`) is the external `agentStream` parameter mapping the built
input messages to an update stream. The function only reads the session
store (`SESSIONS.get`); the store it returns is the one it was given,
mirroring that the handler body contains no write to `SESSIONS`. -/
def ask_question (agentStream : List (String × String) → List Step)
    (sessions : SessionStore) (q : Query) : SessionStore × AskResponse :=
  let chosen_mode :=
    match q.response_mode with
    | some m => m
    | none => q.input_mode
  let parsed := parse_response (agentStream (buildInputs sessions q))
  (sessions, ⟨parsed.2, parsed.1, chosen_mode⟩)

/-- A sequence of `/ask` turns threaded through the session store. -/
def runQueries (agentStream : List (String × String) → List Step)
    (sessions : SessionStore) (qs : List Query) : SessionStore :=
  qs.foldl (fun s q => (ask_question agentStream s q).1) sessions

/-- Claim C6: for every session_id not present in the session store,
`ask_question` does not raise or reject the request (the model is a total
function): the user name resolves to the placeholder "there", the phone
resolves to the empty string, and the turn proceeds exactly as it would with
those defaults (same response as against an empty store). -/
theorem C6_unknown_session_defaults
    (agentStream : List (String × String) → List Step)
    (sessions : SessionStore) (q : Query)
    (h : sessionsGet sessions q.session_id = none) :
    resolve_name (sessionsGet sessions q.session_id) = "there" ∧
    resolve_phone (sessionsGet sessions q.session_id) = "" ∧
    (ask_question agentStream sessions q).2 = (ask_question agentStream [] q).2 := by
  refine ⟨by rw [h]; rfl, by rw [h]; rfl, ?_⟩
  simp [ask_question, buildInputs, h, sessionsGet]

/-- Witness for C6: one registered session "s1", a query with the unknown
session_id "missing". -/
theorem C6_witness :
    resolve_name (sessionsGet [("s1", ⟨"Ada", "+1555"⟩)] "missing") = "there" ∧
    resolve_phone (sessionsGet [("s1", ⟨"Ada", "+1555"⟩)] "missing") = "" ∧
    (ask_question (fun _ => []) [("s1", ⟨"Ada", "+1555"⟩)] ⟨"hello", "missing", Mode.chat, none⟩).2 =
      (ask_question (fun _ => []) [] ⟨"hello", "missing", Mode.chat, none⟩).2 :=
  C6_unknown_session_defaults (fun _ => []) [("s1", ⟨"Ada", "+1555"⟩)]
    ⟨"hello", "missing", Mode.chat, none⟩ (by decide)

/-- Claim C7: for every name and phone string, `start_session` followed by
`ask_question` with the returned session_id embeds the phone string verbatim
(character for character, with no reformatting, validation or normalization)
into the per-turn instruction context telling the emergency tool which number
to dial: the built inputs carry exactly `sessionContextOf name phone`, and
that context contains the registered phone as a contiguous substring. -/
theorem C7_phone_embedded_verbatim (sessions : SessionStore)
    (fresh_uuid name phone msg : String) (im : Mode) (rm : Option Mode) :
    buildInputs (start_session sessions fresh_uuid name phone).1
        ⟨msg, (start_session sessions fresh_uuid name phone).2.session_id, im, rm⟩ =
      [("system", SYSTEM_PROMPT),
       ("system", sessionContextOf name phone),
       ("user", msg)] ∧
    ∃ pre post, sessionContextOf name phone = pre ++ phone ++ post := by
  constructor
  · simp [buildInputs, start_session, sessionsGet, resolve_name, resolve_phone]
  · refine ⟨"User name: " ++ name ++ ". User phone: ",
      ". When using call_emergency_services(phone), always pass this exact phone number: " ++
        phone ++ ". Agent name is Friday.", ?_⟩
    simp [sessionContextOf, String.append_assoc]

/-- Claim C8: every session entry is written exactly once, at registration,
and never mutated or removed afterwards: any sequence of `ask_question` calls
returns the session store unchanged (so the entry for every session_id, and
every other entry, is exactly as registration left it). -/
theorem C8_sessions_never_mutated
    (agentStream : List (String × String) → List Step)
    (sessions : SessionStore) (qs : List Query) :
    runQueries agentStream sessions qs = sessions := by
  induction qs generalizing sessions with
  | nil => rfl
  | cons q rest ih => exact ih sessions

/-- The TTS model name of frontend.py line 13. -/
def TTS_MODEL : String := "gemini-2.5-flash-preview-tts"

/-- The `max_retries` of frontend.py line 81. -/
def max_retries : Nat := 3

/-- The first part of a parsed TTS JSON response (frontend.py lines 93-95):
`part.get('inlineData', {}).get('data')` and the mime type, each a string or
Python `None`. -/
structure InlineData where
  data : Option String
  mimeType : Option String
deriving DecidableEq

/-- Outcome of one attempt of the `requests.post` block (frontend.py lines
84-91): a `requests.exceptions.RequestException` (network failure or a bad
HTTP status via `raise_for_status`), some other exception, or a parsed
response body. -/
inductive AttemptOutcome where
  | requestFailure (err : String)
  | otherFailure (err : String)
  | response (part : InlineData)
deriving DecidableEq

/-- A user-visible Streamlit effect emitted by
`handle_tts_generation_and_play`: `st.info`, `st.warning`, `time.sleep`,
`st.audio` (its payload — the decoded PCM bytes, mime type and sample rate —
is not modelled; only that playback happened), `st.success`, `st.error`. -/
inductive UiEvent where
  | info (text : String)
  | warning (text : String)
  | sleep (seconds : Nat)
  | audio
  | success (text : String)
  | error (text : String)
deriving DecidableEq

/-- The retry loop `for i in range(max_retries)` of frontend.py lines 82-125,
as a recursion on the remaining iteration count (`fuel = max_retries - i`).
Returns the emitted UI events in order and the function's return value; fuel
exhaustion is the loop ending, after which line 126 returns `False`. -/
def ttsAttemptLoop (attempt : Nat → AttemptOutcome) : Nat → Nat → List UiEvent × Bool
  | _, 0 => ([], false)
  | i, fuel + 1 =>
    match attempt i with
    | .response part =>
      if optTruthy part.data && optTruthy part.mimeType &&
          (part.mimeType.getD "").startsWith "audio/L16" then
        ([UiEvent.audio, UiEvent.success "Voice response played successfully."], true)
      else
        ([UiEvent.error "TTS API response missing audio data."], false)
    | .requestFailure e =>
      if i < max_retries - 1 then
        let rest := ttsAttemptLoop attempt (i + 1) fuel
        (UiEvent.warning ("TTS API failed (Attempt " ++ toString (i + 1) ++ "/" ++
            toString max_retries ++ "). Retrying in " ++ toString (2 ^ i) ++ " seconds...") ::
          UiEvent.sleep (2 ^ i) :: rest.1, rest.2)
      else
        ([UiEvent.error ("TTS API failed after multiple retries. Please check the backend service: " ++ e)], false)
    | .otherFailure e =>
      ([UiEvent.error ("An unexpected error occurred during TTS processing: " ++ e)], false)

/-- `handle_tts_generation_and_play` of frontend.py lines 61-126: the initial
`st.info`, then the retry loop. The outcome of attempt `i` of the HTTP
request is given by the external `attempt` parameter. -/
def handle_tts_generation_and_play (attempt : Nat → AttemptOutcome) : List UiEvent × Bool :=
  let r := ttsAttemptLoop attempt 0 max_retries
  (UiEvent.info ("Generating voice response using model: " ++ TTS_MODEL ++ "...") :: r.1, r.2)

/-- The sleep delays (in seconds) among a list of UI events, in order. -/
def sleepSeconds (evs : List UiEvent) : List Nat :=
  evs.filterMap fun e =>
    match e with
    | .sleep s => some s
    | _ => none

/-- Test for a visible `st.error` among the emitted UI events. -/
def hasVisibleError (evs : List UiEvent) : Bool :=
  evs.any fun e =>
    match e with
    | .error _ => true
    | _ => false

/-- An attempt function on which every TTS request fails with a transient
network error. -/
def allAttemptsFail : Nat → AttemptOutcome :=
  fun _ => AttemptOutcome.requestFailure "connection timeout"

/-- Claim C9 is false on the code: when every attempt fails with a transient
network error, the backoff sleeps are exactly 1s then 2s — there are only two
waits between the three attempts, and the claimed third delay of 4s never
occurs. -/
theorem C9_counterexample :
    sleepSeconds (handle_tts_generation_and_play allAttemptsFail).1 = [1, 2] ∧
    sleepSeconds (handle_tts_generation_and_play allAttemptsFail).1 ≠ [1, 2, 4] := by
  constructor <;> decide

/-- Claim C9, amended: when the TTS request fails with a transient network
error on every attempt, the client makes exactly 3 attempts (`max_retries`),
with exponential backoff delays of 1s then 2s between consecutive attempts
(no 4s delay occurs), and surfaces a visible error to the user after the
final attempt fails, returning False: the full emitted event trace is the
initial info, a warning plus 1s sleep, a warning plus 2s sleep, and the
final visible error. -/
theorem C9_retry_backoff_trace (e : Nat → String) :
    handle_tts_generation_and_play (fun i => AttemptOutcome.requestFailure (e i)) =
      ([UiEvent.info "Generating voice response using model: gemini-2.5-flash-preview-tts...",
        UiEvent.warning "TTS API failed (Attempt 1/3). Retrying in 1 seconds...",
        UiEvent.sleep 1,
        UiEvent.warning "TTS API failed (Attempt 2/3). Retrying in 2 seconds...",
        UiEvent.sleep 2,
        UiEvent.error ("TTS API failed after multiple retries. Please check the backend service: " ++ e 2)],
       false) := by
  rfl
